import Mathlib

/-!
Shallow embedding of the `product_similarity` matcher
(`src/main.rs`, `src/product.rs`, `src/settings.rs`, `src/output.rs`).

The program partitions a product list into records without settings
("unsettled") and records with settings ("settled"), compares every
unsettled/settled name pair under every configured string-similarity
metric, and collects one migrated `Product` for every metric whose value
strictly exceeds its configured threshold.  File I/O, logging and JSON
serialization are external side effects and are not part of the model;
`f64` thresholds and metric values are modelled as exact rationals, which
is faithful for every comparison the development exercises.
-/

/-- `Product` record, from `src/product.rs`:
`{ id: String, name: String, settings_id: Vec<String> }`. -/
structure Product where
  id : String
  name : String
  settings_id : List String
deriving DecidableEq, Repr

/-- `SimilarityType` enum, from `src/settings.rs`: nine metric variants,
each carrying its threshold (`usize` thresholds as `Nat`, `f64` thresholds
as `ℚ`). -/
inductive SimilarityType where
  | Hamming (min : Nat)
  | Levenshtein (min : Nat)
  | NormalizedLevenshtein (min : ℚ)
  | OsaDistance (min : Nat)
  | DamerauLevenshtein (min : Nat)
  | NormalizedDamerauLevenshtein (min : ℚ)
  | Jaro (min : ℚ)
  | JaroWinkler (min : ℚ)
  | SorensenDice (min : ℚ)
deriving DecidableEq, Repr

/-- `Settings`, from `src/settings.rs`: thread count and the configured
ordered metric list. -/
structure Settings where
  num_threads : Nat
  similarities_types : List SimilarityType
deriving DecidableEq, Repr

/-- `impl PartialEq for Product` (`src/product.rs`): equality compares
only the `id` field. -/
def Product.beqById (a b : Product) : Bool :=
  a.id == b.id

/-- `impl Hash for Product` (`src/product.rs`): only `self.id` is fed to
the hasher, modelled as an arbitrary function of the hashed data. -/
def Product.hashById {α : Type} (hasher : String → α) (a : Product) : α :=
  hasher a.id

/-- `Product::new_with_usize_similarity` (`src/product.rs`): logs the pair
and builds the output record from the unsettled record's `id` and `name`
and the settled record's `settings_id`.  The metric tag and value are only
logged, so the model takes them as unused arguments. -/
def Product.new_with_usize_similarity (product_without_settings : Product)
    (product_with_settings : Product) (_similarity_type : SimilarityType)
    (_similarity : Nat) : Product :=
  { id := product_without_settings.id
    name := product_without_settings.name
    settings_id := product_with_settings.settings_id }

/-- `Product::new_with_f64_similarity` (`src/product.rs`): identical to
the `usize` variant except for the type of the logged value. -/
def Product.new_with_f64_similarity (product_without_settings : Product)
    (product_with_settings : Product) (_similarity_type : SimilarityType)
    (_similarity : ℚ) : Product :=
  { id := product_without_settings.id
    name := product_without_settings.name
    settings_id := product_with_settings.settings_id }

/-- The external `strsim` crate, which the spec (§1) places out of scope:
"the textual-distance algorithms themselves … are assumed to be provided
by a standard string-metrics library and are consumed as pure functions".
The model therefore quantifies over an arbitrary such library.
`hamming` is fallible (it errors on unequal-length inputs), hence
`Option`; the `f64`-valued metrics are modelled as `ℚ`-valued. -/
structure Strsim where
  hamming : String → String → Option Nat
  levenshtein : String → String → Nat
  normalized_levenshtein : String → String → ℚ
  osa_distance : String → String → Nat
  damerau_levenshtein : String → String → Nat
  normalized_damerau_levenshtein : String → String → ℚ
  jaro : String → String → ℚ
  jaro_winkler : String → String → ℚ
  sorensen_dice : String → String → ℚ

/-- One row update of the Levenshtein dynamic program: given the remaining
characters of `b`, the suffix of the previous row starting at the current
column, and the entry just computed to the left, produce the rest of the
new row. -/
def levRowAux (x : Char) : List Char → List Nat → Nat → List Nat
  | y :: ys, pj :: prest, left =>
      let cur := min (pj + (if x = y then 0 else 1))
                     (min (prest.headD (pj + 1) + 1) (left + 1))
      cur :: levRowAux x ys prest cur
  | _, _, _ => []

/-- Modelled from the spec: `strsim::levenshtein`, an external collaborator
(spec §1), computed by the standard row-by-row dynamic program. -/
def levenshteinFn (a b : String) : Nat :=
  let ys := b.toList
  let finalRow := a.toList.foldl
    (fun row x =>
      match row with
      | r0 :: _ => (r0 + 1) :: levRowAux x ys row (r0 + 1)
      | [] => [])
    (List.range (ys.length + 1))
  finalRow.getLastD 0

/-- Strict Hamming distance on character lists: `none` when the lengths
differ. -/
def hammingAux : List Char → List Char → Option Nat
  | [], [] => some 0
  | x :: xs, y :: ys => (hammingAux xs ys).map (fun d => d + (if x = y then 0 else 1))
  | _, _ => none

/-- Modelled from the spec: `strsim::hamming`, an external collaborator
(spec §1); errors exactly on unequal-length inputs. -/
def hammingFn (a b : String) : Option Nat :=
  hammingAux a.toList b.toList

/-- Modelled from the spec: `strsim::normalized_levenshtein` as an exact
rational, `1 - distance / max(|a|, |b|)` (and `1` for two empty strings). -/
def normalizedLevenshteinFn (a b : String) : ℚ :=
  if a.length = 0 ∧ b.length = 0 then 1
  else 1 - (levenshteinFn a b : ℚ) / (max a.length b.length : ℚ)

/-- Modelled from the spec: a concrete instance of the external metric
library, used only to evaluate closed statements.  `hamming` and
`levenshtein` are modelled exactly (every concrete scenario in the spec
exercises only these two); the remaining metrics are external collaborators
(spec §1) whose values no theorem below depends on, so they are filled with
fixed defaults, and every general theorem quantifies over an arbitrary
`Strsim` instead. -/
def strsimImpl : Strsim where
  hamming := hammingFn
  levenshtein := levenshteinFn
  normalized_levenshtein := normalizedLevenshteinFn
  osa_distance := fun _ _ => 0
  damerau_levenshtein := fun _ _ => 0
  normalized_damerau_levenshtein := normalizedLevenshteinFn
  jaro := fun _ _ => 0
  jaro_winkler := fun _ _ => 0
  sorensen_dice := fun _ _ => 0

/-- The body of the innermost `par_iter().for_each` of `init_calculate`
(`src/main.rs` lines 82–259): dispatch on the metric variant, compute its
value on the two names, and push a migrated product exactly when
`min < similarity`; a failing `hamming` computation pushes nothing. -/
def similarityPush (lib : Strsim) (product_without_settings : Product)
    (product_with_settings : Product) (similarity_type : SimilarityType) :
    Option Product :=
  match similarity_type with
  | SimilarityType.Hamming min =>
      match lib.hamming product_without_settings.name product_with_settings.name with
      | some similarity =>
          if min < similarity then
            some (Product.new_with_usize_similarity product_without_settings
              product_with_settings similarity_type similarity)
          else none
      | none => none
  | SimilarityType.Levenshtein min =>
      let similarity := lib.levenshtein product_without_settings.name
        product_with_settings.name
      if min < similarity then
        some (Product.new_with_usize_similarity product_without_settings
          product_with_settings similarity_type similarity)
      else none
  | SimilarityType.NormalizedLevenshtein min =>
      let similarity := lib.normalized_levenshtein product_without_settings.name
        product_with_settings.name
      if min < similarity then
        some (Product.new_with_f64_similarity product_without_settings
          product_with_settings similarity_type similarity)
      else none
  | SimilarityType.OsaDistance min =>
      let similarity := lib.osa_distance product_without_settings.name
        product_with_settings.name
      if min < similarity then
        some (Product.new_with_usize_similarity product_without_settings
          product_with_settings similarity_type similarity)
      else none
  | SimilarityType.DamerauLevenshtein min =>
      let similarity := lib.damerau_levenshtein product_without_settings.name
        product_with_settings.name
      if min < similarity then
        some (Product.new_with_usize_similarity product_without_settings
          product_with_settings similarity_type similarity)
      else none
  | SimilarityType.NormalizedDamerauLevenshtein min =>
      let similarity := lib.normalized_damerau_levenshtein
        product_without_settings.name product_with_settings.name
      if min < similarity then
        some (Product.new_with_f64_similarity product_without_settings
          product_with_settings similarity_type similarity)
      else none
  | SimilarityType.Jaro min =>
      let similarity := lib.jaro product_without_settings.name
        product_with_settings.name
      if min < similarity then
        some (Product.new_with_f64_similarity product_without_settings
          product_with_settings similarity_type similarity)
      else none
  | SimilarityType.JaroWinkler min =>
      let similarity := lib.jaro_winkler product_without_settings.name
        product_with_settings.name
      if min < similarity then
        some (Product.new_with_f64_similarity product_without_settings
          product_with_settings similarity_type similarity)
      else none
  | SimilarityType.SorensenDice min =>
      let similarity := lib.sorensen_dice product_without_settings.name
        product_with_settings.name
      if min < similarity then
        some (Product.new_with_f64_similarity product_without_settings
          product_with_settings similarity_type similarity)
      else none

/-- The middle loop of `init_calculate` restricted to one pair: every
configured metric is visited (the `par_iter().for_each` over
`settings.similarities_types` has no early exit), and each visit pushes at
most one product. -/
def pairResults (lib : Strsim) (product_without_settings : Product)
    (product_with_settings : Product) (similarities_types : List SimilarityType) :
    List Product :=
  similarities_types.filterMap
    (similarityPush lib product_without_settings product_with_settings)

/-- The multiset of pushes of the triple-nested parallel loop of
`init_calculate` (`src/main.rs` lines 74–259), in canonical sequential
order: unsettled × settled × metrics.  The rayon scheduler performs these
same independent pushes under one mutex, so a real run appends them in
some interleaving-dependent order (see `ParallelOutcome`). -/
def calcProducts (lib : Strsim) (settings : Settings) (products : List Product) :
    List Product :=
  let products_without_settings := products.filter (fun p => p.settings_id.isEmpty)
  let products_with_settings := products.filter (fun p => !p.settings_id.isEmpty)
  products_without_settings.flatMap (fun product_without_settings =>
    products_with_settings.flatMap (fun product_with_settings =>
      pairResults lib product_without_settings product_with_settings
        settings.similarities_types))

/-- `init_calculate` (`src/main.rs` lines 47–267): partition the products
by the empty-`settings_id` predicate, fail if either part is empty,
otherwise run the nested parallel pass and return the collected products.
Errors carry the `ensure!` message. -/
def init_calculate (lib : Strsim) (settings : Settings) (products : List Product) :
    Except String (List Product) :=
  let products_without_settings := products.filter (fun p => p.settings_id.isEmpty)
  if products_without_settings.isEmpty then
    Except.error "Products without settings not found."
  else
    let products_with_settings := products.filter (fun p => !p.settings_id.isEmpty)
    if products_with_settings.isEmpty then
      Except.error "Products with settings not found."
    else
      Except.ok (calcProducts lib settings products)

/-- `fn main` (`src/main.rs` lines 16–44) without its I/O (named `mainRun` because Lean reserves `main` for entry points): check the metric
list and product list are non-empty, run `init_calculate`, and fail when
the calculated collection is empty; otherwise the returned list is what
`output::write_output` serializes. -/
def mainRun (lib : Strsim) (settings : Settings) (products : List Product) :
    Except String (List Product) :=
  if settings.similarities_types.isEmpty then
    Except.error "Similarity types settings not found."
  else if products.isEmpty then
    Except.error "Products not found."
  else
    match init_calculate lib settings products with
    | Except.error e => Except.error e
    | Except.ok calculated_products =>
        if calculated_products.isEmpty then
          Except.error "Calculated products empty."
        else
          Except.ok calculated_products

/-- A possible result collection of one run of the parallel pass: the
pushes of the nested `for_each` are pairwise independent and serialized by
a single mutex, so any schedule produces some permutation of the canonical
push list. -/
def ParallelOutcome (lib : Strsim) (settings : Settings)
    (products : List Product) (out : List Product) : Prop :=
  List.Perm out (calcProducts lib settings products)

/-- The acceptance decision of `init_calculate` for one metric on one
pair, separated from the push it guards: the metric's value computes
successfully and strictly exceeds the configured threshold
(`min < similarity` in every arm of the `match`). -/
def accepted (lib : Strsim) (product_without_settings : Product)
    (product_with_settings : Product) : SimilarityType → Bool
  | SimilarityType.Hamming min =>
      match lib.hamming product_without_settings.name product_with_settings.name with
      | some similarity => decide (min < similarity)
      | none => false
  | SimilarityType.Levenshtein min =>
      decide (min < lib.levenshtein product_without_settings.name
        product_with_settings.name)
  | SimilarityType.NormalizedLevenshtein min =>
      decide (min < lib.normalized_levenshtein product_without_settings.name
        product_with_settings.name)
  | SimilarityType.OsaDistance min =>
      decide (min < lib.osa_distance product_without_settings.name
        product_with_settings.name)
  | SimilarityType.DamerauLevenshtein min =>
      decide (min < lib.damerau_levenshtein product_without_settings.name
        product_with_settings.name)
  | SimilarityType.NormalizedDamerauLevenshtein min =>
      decide (min < lib.normalized_damerau_levenshtein
        product_without_settings.name product_with_settings.name)
  | SimilarityType.Jaro min =>
      decide (min < lib.jaro product_without_settings.name
        product_with_settings.name)
  | SimilarityType.JaroWinkler min =>
      decide (min < lib.jaro_winkler product_without_settings.name
        product_with_settings.name)
  | SimilarityType.SorensenDice min =>
      decide (min < lib.sorensen_dice product_without_settings.name
        product_with_settings.name)

/-- The record migrated for an accepted pair: the unsettled record's
identity with the settled record's settings. -/
def migrated (product_without_settings product_with_settings : Product) : Product :=
  { id := product_without_settings.id
    name := product_without_settings.name
    settings_id := product_with_settings.settings_id }


deriving instance DecidableEq for Except

/-- Master characterization of one loop-body execution: a product is
pushed exactly when the metric accepts the pair, and the pushed product is
always the migrated record. -/
theorem similarityPush_eq_ite (lib : Strsim) (pw ps : Product)
    (t : SimilarityType) :
    similarityPush lib pw ps t =
      if accepted lib pw ps t then some (migrated pw ps) else none := by
  cases t with
  | Hamming min =>
      rcases h : lib.hamming pw.name ps.name with _ | v
      · simp [similarityPush, accepted, h]
      · by_cases hv : min < v <;>
          simp [similarityPush, accepted, h, hv,
            Product.new_with_usize_similarity, migrated]
  | Levenshtein min =>
      simp only [similarityPush, accepted]
      by_cases h : min < lib.levenshtein pw.name ps.name <;>
        simp [h, Product.new_with_usize_similarity, migrated]
  | NormalizedLevenshtein min =>
      simp only [similarityPush, accepted]
      by_cases h : min < lib.normalized_levenshtein pw.name ps.name <;>
        simp [h, Product.new_with_f64_similarity, migrated]
  | OsaDistance min =>
      simp only [similarityPush, accepted]
      by_cases h : min < lib.osa_distance pw.name ps.name <;>
        simp [h, Product.new_with_usize_similarity, migrated]
  | DamerauLevenshtein min =>
      simp only [similarityPush, accepted]
      by_cases h : min < lib.damerau_levenshtein pw.name ps.name <;>
        simp [h, Product.new_with_usize_similarity, migrated]
  | NormalizedDamerauLevenshtein min =>
      simp only [similarityPush, accepted]
      by_cases h : min < lib.normalized_damerau_levenshtein pw.name ps.name <;>
        simp [h, Product.new_with_f64_similarity, migrated]
  | Jaro min =>
      simp only [similarityPush, accepted]
      by_cases h : min < lib.jaro pw.name ps.name <;>
        simp [h, Product.new_with_f64_similarity, migrated]
  | JaroWinkler min =>
      simp only [similarityPush, accepted]
      by_cases h : min < lib.jaro_winkler pw.name ps.name <;>
        simp [h, Product.new_with_f64_similarity, migrated]
  | SorensenDice min =>
      simp only [similarityPush, accepted]
      by_cases h : min < lib.sorensen_dice pw.name ps.name <;>
        simp [h, Product.new_with_f64_similarity, migrated]

/-- The per-pair loop pushes one migrated record per accepting metric, in
metric-list order. -/
theorem pairResults_eq_filter (lib : Strsim) (pw ps : Product)
    (ts : List SimilarityType) :
    pairResults lib pw ps ts =
      (ts.filter (accepted lib pw ps)).map (fun _ => migrated pw ps) := by
  induction ts with
  | nil => rfl
  | cons t ts ih =>
      simp only [pairResults, List.filterMap_cons, List.filter_cons] at *
      rw [similarityPush_eq_ite]
      by_cases h : accepted lib pw ps t <;> simp [h, ih]

/-- Per-pair result count equals the number of accepting metrics. -/
theorem pairResults_length (lib : Strsim) (pw ps : Product)
    (ts : List SimilarityType) :
    (pairResults lib pw ps ts).length = ts.countP (accepted lib pw ps) := by
  rw [pairResults_eq_filter, List.length_map, List.countP_eq_length_filter]

/-- Membership in the per-pair results: exactly the migrated record, and
only when some configured metric accepts. -/
theorem mem_pairResults (lib : Strsim) (pw ps : Product)
    (ts : List SimilarityType) (r : Product) :
    r ∈ pairResults lib pw ps ts ↔
      (∃ t ∈ ts, accepted lib pw ps t = true) ∧ r = migrated pw ps := by
  rw [pairResults_eq_filter]
  simp only [List.mem_map, List.mem_filter]
  constructor
  · rintro ⟨t, ⟨ht, hacc⟩, hr⟩
    exact ⟨⟨t, ht, hacc⟩, hr.symm⟩
  · rintro ⟨⟨t, ht, hacc⟩, hr⟩
    exact ⟨t, ⟨ht, hacc⟩, hr.symm⟩

/-- Membership in the full pass output: a record appears iff it is the
migration of some unsettled/settled input pair accepted by some configured
metric. -/
theorem mem_calcProducts (lib : Strsim) (st : Settings) (ps : List Product)
    (r : Product) :
    r ∈ calcProducts lib st ps ↔
      ∃ u ∈ ps, u.settings_id = [] ∧
        ∃ s ∈ ps, s.settings_id ≠ [] ∧
          (∃ t ∈ st.similarities_types, accepted lib u s t = true) ∧
          r = migrated u s := by
  simp only [calcProducts, List.mem_flatMap, List.mem_filter, mem_pairResults]
  constructor
  · rintro ⟨u, ⟨hu, hue⟩, s, ⟨hs, hse⟩, hacc, hr⟩
    refine ⟨u, hu, List.isEmpty_iff.mp hue, s, hs, ?_, hacc, hr⟩
    intro hnil
    rw [hnil] at hse
    simp at hse
  · rintro ⟨u, hu, hue, s, hs, hse, hacc, hr⟩
    refine ⟨u, ⟨hu, List.isEmpty_iff.mpr hue⟩, s, ⟨hs, ?_⟩, hacc, hr⟩
    cases h : s.settings_id with
    | nil => exact absurd h hse
    | cons a l => simp [h]

/-- A push happens exactly when the metric accepts the pair. -/
theorem similarityPush_isSome (lib : Strsim) (pw ps : Product)
    (t : SimilarityType) :
    (similarityPush lib pw ps t).isSome = accepted lib pw ps t := by
  rw [similarityPush_eq_ite]
  by_cases h : accepted lib pw ps t <;> simp [h]

/-- A non-empty list has `isEmpty = false`. -/
theorem isEmpty_eq_false_of_ne_nil {α : Type} {l : List α} (h : l ≠ []) :
    l.isEmpty = false := by
  cases l with
  | nil => exact absurd rfl h
  | cons a l => rfl

/-- `init_calculate` can fail only with one of the two partition-guard
messages (`ensure!` at `src/main.rs` lines 53–56 and 63–66); the metric
evaluations themselves never produce an error. -/
theorem init_calculate_error_message (lib : Strsim) (st : Settings)
    (ps : List Product) (e : String)
    (h : init_calculate lib st ps = Except.error e) :
    e = "Products without settings not found." ∨
    e = "Products with settings not found." := by
  simp only [init_calculate] at h
  split at h
  · exact Or.inl (Except.error.inj h).symm
  · split at h
    · exact Or.inr (Except.error.inj h).symm
    · simp at h

/-- C1 is refuted at a concrete input: with metrics
`[Levenshtein 0, Levenshtein 1]` and the single pair
(`{u1, "ab", []}`, `{s1, "cd", [catA]}`), both metrics pass
(edit distance 2), and `init_calculate` returns two results for the one
pair — not "at most one result" — and replacing the *later* metric's
threshold by 5 changes the output, so the result is not independent of
later metrics. -/
theorem C1_counterexample :
    init_calculate strsimImpl
        ⟨2, [SimilarityType.Levenshtein 0, SimilarityType.Levenshtein 1]⟩
        [⟨"u1", "ab", []⟩, ⟨"s1", "cd", ["catA"]⟩] =
      Except.ok [⟨"u1", "ab", ["catA"]⟩, ⟨"u1", "ab", ["catA"]⟩] ∧
    init_calculate strsimImpl
        ⟨2, [SimilarityType.Levenshtein 0, SimilarityType.Levenshtein 1]⟩
        [⟨"u1", "ab", []⟩, ⟨"s1", "cd", ["catA"]⟩] ≠
      init_calculate strsimImpl
        ⟨2, [SimilarityType.Levenshtein 0, SimilarityType.Levenshtein 5]⟩
        [⟨"u1", "ab", []⟩, ⟨"s1", "cd", ["catA"]⟩] := by
  exact ⟨by decide, by decide⟩

/-- C1 (amended): for every (unsettled, settled) pair the matcher
evaluates *every* configured metric — there is no short-circuit — and each
metric whose value passes its threshold contributes its own `MatchResult`,
all equal to the migrated record, so a pair contributes exactly as many
results as metrics that pass. -/
theorem C1_amended (lib : Strsim) (pw ps : Product)
    (ts : List SimilarityType) :
    pairResults lib pw ps ts =
      (ts.filter (accepted lib pw ps)).map (fun _ => migrated pw ps) ∧
    (pairResults lib pw ps ts).length = ts.countP (accepted lib pw ps) :=
  ⟨pairResults_eq_filter lib pw ps ts, pairResults_length lib pw ps ts⟩

/-- C2: for every metric variant, the loop body pushes a result for a pair
iff the metric's value computes successfully and *strictly* exceeds the
configured threshold (`min < similarity`); in the spec's boundary scenario
(names at edit distance 1 under `Levenshtein 1`) no result is pushed. -/
theorem C2_threshold_strict (lib : Strsim) (pw ps : Product) :
    (∀ min : Nat,
      (similarityPush lib pw ps (SimilarityType.Hamming min)).isSome = true ↔
        ∃ v, lib.hamming pw.name ps.name = some v ∧ min < v) ∧
    (∀ min : Nat,
      (similarityPush lib pw ps (SimilarityType.Levenshtein min)).isSome = true ↔
        min < lib.levenshtein pw.name ps.name) ∧
    (∀ min : ℚ,
      (similarityPush lib pw ps (SimilarityType.NormalizedLevenshtein min)).isSome = true ↔
        min < lib.normalized_levenshtein pw.name ps.name) ∧
    (∀ min : Nat,
      (similarityPush lib pw ps (SimilarityType.OsaDistance min)).isSome = true ↔
        min < lib.osa_distance pw.name ps.name) ∧
    (∀ min : Nat,
      (similarityPush lib pw ps (SimilarityType.DamerauLevenshtein min)).isSome = true ↔
        min < lib.damerau_levenshtein pw.name ps.name) ∧
    (∀ min : ℚ,
      (similarityPush lib pw ps (SimilarityType.NormalizedDamerauLevenshtein min)).isSome = true ↔
        min < lib.normalized_damerau_levenshtein pw.name ps.name) ∧
    (∀ min : ℚ,
      (similarityPush lib pw ps (SimilarityType.Jaro min)).isSome = true ↔
        min < lib.jaro pw.name ps.name) ∧
    (∀ min : ℚ,
      (similarityPush lib pw ps (SimilarityType.JaroWinkler min)).isSome = true ↔
        min < lib.jaro_winkler pw.name ps.name) ∧
    (∀ min : ℚ,
      (similarityPush lib pw ps (SimilarityType.SorensenDice min)).isSome = true ↔
        min < lib.sorensen_dice pw.name ps.name) ∧
    pairResults strsimImpl ⟨"u1", "applesauce", []⟩ ⟨"s2", "applesause", ["catB"]⟩
      [SimilarityType.Levenshtein 1] = [] := by
  refine ⟨?_, ?_, ?_, ?_, ?_, ?_, ?_, ?_, ?_, by decide⟩
  · intro min
    rw [similarityPush_isSome]
    rcases h : lib.hamming pw.name ps.name with _ | v <;> simp [accepted, h]
  all_goals intro min
  all_goals rw [similarityPush_isSome]
  all_goals simp [accepted]

/-- C3: every emitted match result carries the unsettled record's `id` and
`name` together with the settled record's `settings_id`; in the spec's
scenario (`u1`/`applesauce` against `s2`/`applesause` under
`Levenshtein 0`) the output is exactly
`{id: u1, name: applesauce, settings: [catB]}`. -/
theorem C3_result_fields :
    (∀ (u s : Product) (t : SimilarityType) (v : Nat),
        Product.new_with_usize_similarity u s t v =
          ⟨u.id, u.name, s.settings_id⟩) ∧
    (∀ (u s : Product) (t : SimilarityType) (v : ℚ),
        Product.new_with_f64_similarity u s t v =
          ⟨u.id, u.name, s.settings_id⟩) ∧
    (∀ (lib : Strsim) (u s : Product) (ts : List SimilarityType) (r : Product),
        r ∈ pairResults lib u s ts → r = ⟨u.id, u.name, s.settings_id⟩) ∧
    init_calculate strsimImpl ⟨2, [SimilarityType.Levenshtein 0]⟩
        [⟨"u1", "applesauce", []⟩, ⟨"s2", "applesause", ["catB"]⟩] =
      Except.ok [⟨"u1", "applesauce", ["catB"]⟩] := by
  refine ⟨fun u s t v => rfl, fun u s t v => rfl, ?_, by decide⟩
  intro lib u s ts r hr
  exact ((mem_pairResults lib u s ts r).mp hr).2

/-- Witness for C3 at the spec's concrete scenario. -/
theorem C3_result_fields_witness :
    ((⟨"u1", "applesauce", ["catB"]⟩ : Product) ∈
      pairResults strsimImpl ⟨"u1", "applesauce", []⟩ ⟨"s2", "applesause", ["catB"]⟩
        [SimilarityType.Levenshtein 0]) ∧
    (⟨"u1", "applesauce", ["catB"]⟩ : Product) =
      ⟨"u1", "applesauce", ["catB"]⟩ :=
  ⟨by decide, C3_result_fields.2.2.1 strsimImpl ⟨"u1", "applesauce", []⟩
    ⟨"s2", "applesause", ["catB"]⟩ [SimilarityType.Levenshtein 0]
    ⟨"u1", "applesauce", ["catB"]⟩ (by decide)⟩

/-- C9: `Product` equality compares only the `id` field, and the hash is a
function of the `id` alone — `name` and `settings_id` play no role in
either. -/
theorem C9_eq_hash_by_id :
    (∀ a b : Product, Product.beqById a b = true ↔ a.id = b.id) ∧
    (∀ (α : Type) (hasher : String → α) (a b : Product),
        a.id = b.id → Product.hashById hasher a = Product.hashById hasher b) ∧
    (∀ (i n₁ n₂ : String) (s₁ s₂ : List String),
        Product.beqById ⟨i, n₁, s₁⟩ ⟨i, n₂, s₂⟩ = true) ∧
    (∀ (α : Type) (hasher : String → α) (i n₁ n₂ : String)
        (s₁ s₂ : List String),
        Product.hashById hasher ⟨i, n₁, s₁⟩ =
          Product.hashById hasher ⟨i, n₂, s₂⟩) := by
  refine ⟨?_, ?_, ?_, ?_⟩
  · intro a b
    simp [Product.beqById]
  · intro α hasher a b h
    simp [Product.hashById, h]
  · intro i n₁ n₂ s₁ s₂
    simp [Product.beqById]
  · intro α hasher i n₁ n₂ s₁ s₂
    rfl

/-- Witness for C9: two records sharing an `id` but differing in `name`
and `settings_id` hash identically. -/
theorem C9_eq_hash_by_id_witness :
    ((⟨"p1", "apple", []⟩ : Product).id = (⟨"p1", "pear", ["x"]⟩ : Product).id) ∧
    Product.hashById String.length (⟨"p1", "apple", []⟩ : Product) =
      Product.hashById String.length (⟨"p1", "pear", ["x"]⟩ : Product) :=
  ⟨rfl, C9_eq_hash_by_id.2.1 Nat String.length ⟨"p1", "apple", []⟩
    ⟨"p1", "pear", ["x"]⟩ rfl⟩

/-- C4: the collection built by the parallel pass contains exactly one
output record per triple (unsettled u, settled s, metric m) whose value
computes successfully and strictly exceeds m's threshold: the output is
the triple-indexed list of migrated records, and its length is the total
count of passing triples, so a pair passing k metrics contributes k
entries. -/
theorem C4_one_output_per_passing_triple (lib : Strsim) (st : Settings)
    (ps : List Product) :
    calcProducts lib st ps =
      (ps.filter (fun p => p.settings_id.isEmpty)).flatMap (fun u =>
        (ps.filter (fun p => !p.settings_id.isEmpty)).flatMap (fun s =>
          (st.similarities_types.filter (accepted lib u s)).map
            (fun _ => migrated u s))) ∧
    (calcProducts lib st ps).length =
      ((ps.filter (fun p => p.settings_id.isEmpty)).map (fun u =>
        ((ps.filter (fun p => !p.settings_id.isEmpty)).map (fun s =>
          st.similarities_types.countP (accepted lib u s))).sum)).sum := by
  constructor
  · simp only [calcProducts]
    exact List.flatMap_congr (fun u _ =>
      List.flatMap_congr (fun s _ => pairResults_eq_filter lib u s _))
  · simp only [calcProducts, List.length_flatMap, Function.comp_def,
      pairResults_length, List.map_map]

/-- C5: when either partition is empty, `init_calculate` fails with the
corresponding guard error, the outcome does not depend on the metric
library at all (no comparison is consulted), and no result collection is
produced. -/
theorem C5_partition_guard (lib : Strsim) (st : Settings) (ps : List Product)
    (h : ps.filter (fun p => p.settings_id.isEmpty) = [] ∨
         ps.filter (fun p => !p.settings_id.isEmpty) = []) :
    (init_calculate lib st ps = Except.error "Products without settings not found." ∨
     init_calculate lib st ps = Except.error "Products with settings not found.") ∧
    (∀ lib2 : Strsim, init_calculate lib2 st ps = init_calculate lib st ps) ∧
    (∀ out : List Product, init_calculate lib st ps ≠ Except.ok out) := by
  by_cases h1 : (List.filter (fun p => p.settings_id.isEmpty) ps).isEmpty = true
  · refine ⟨Or.inl ?_, fun lib2 => ?_, fun out hc => ?_⟩
    · simp [init_calculate, h1]
    · simp [init_calculate, h1]
    · simp [init_calculate, h1] at hc
  · have h2 : (List.filter (fun p => !p.settings_id.isEmpty) ps).isEmpty = true := by
      rcases h with h | h
      · exact absurd (List.isEmpty_iff.mpr h) h1
      · exact List.isEmpty_iff.mpr h
    refine ⟨Or.inr ?_, fun lib2 => ?_, fun out hc => ?_⟩
    · simp [init_calculate, h1, h2]
    · simp [init_calculate, h1, h2]
    · simp [init_calculate, h1, h2] at hc

/-- Witness for C5: an all-settled input (no record with empty settings)
is rejected by the first guard. -/
theorem C5_partition_guard_witness :
    (List.filter (fun p => p.settings_id.isEmpty)
        [(⟨"s1", "x", ["a"]⟩ : Product)] = [] ∨
     List.filter (fun p => !p.settings_id.isEmpty)
        [(⟨"s1", "x", ["a"]⟩ : Product)] = []) ∧
    (init_calculate strsimImpl ⟨2, [SimilarityType.Levenshtein 0]⟩
        [⟨"s1", "x", ["a"]⟩] =
          Except.error "Products without settings not found." ∨
     init_calculate strsimImpl ⟨2, [SimilarityType.Levenshtein 0]⟩
        [⟨"s1", "x", ["a"]⟩] =
          Except.error "Products with settings not found.") :=
  ⟨Or.inl (by decide),
    (C5_partition_guard strsimImpl ⟨2, [SimilarityType.Levenshtein 0]⟩
      [⟨"s1", "x", ["a"]⟩] (Or.inl (by decide))).1⟩

/-- C6: with a non-empty metric list and a non-empty product list, the run
reports the fatal "Calculated products empty." error exactly when the
whole parallel pass completed and returned an empty accepted collection —
the error is decided by the completed pass's full result. -/
theorem C6_empty_result_error (lib : Strsim) (st : Settings)
    (ps : List Product) (hm : st.similarities_types ≠ []) (hp : ps ≠ []) :
    mainRun lib st ps = Except.error "Calculated products empty." ↔
      init_calculate lib st ps = Except.ok [] := by
  simp only [mainRun, isEmpty_eq_false_of_ne_nil hm,
    isEmpty_eq_false_of_ne_nil hp, Bool.false_eq_true, if_false]
  rcases hic : init_calculate lib st ps with e | c
  · constructor
    · intro hcontr
      rcases init_calculate_error_message lib st ps e hic with h | h <;>
        rw [h] at hcontr <;> exact absurd (Except.error.inj hcontr) (by decide)
    · intro hcontr
      simp at hcontr
  · constructor
    · intro hcontr
      by_cases hc : c.isEmpty = true
      · rw [List.isEmpty_iff.mp hc]
      · simp [hc] at hcontr
    · intro hcontr
      rw [Except.ok.inj hcontr]
      rfl

/-- Witness for C6 at the spec's scenario: identical names under
`Levenshtein 5` give distance 0, `5 < 0` fails, the pass completes empty,
and the run reports the empty-result error. -/
theorem C6_empty_result_error_witness :
    ([SimilarityType.Levenshtein 5] ≠ ([] : List SimilarityType)) ∧
    ([(⟨"u1", "applesauce", []⟩ : Product),
      ⟨"s1", "applesauce", ["catA"]⟩] ≠ []) ∧
    (mainRun strsimImpl ⟨2, [SimilarityType.Levenshtein 5]⟩
        [⟨"u1", "applesauce", []⟩, ⟨"s1", "applesauce", ["catA"]⟩] =
      Except.error "Calculated products empty." ↔
      init_calculate strsimImpl ⟨2, [SimilarityType.Levenshtein 5]⟩
        [⟨"u1", "applesauce", []⟩, ⟨"s1", "applesauce", ["catA"]⟩] =
      Except.ok []) :=
  ⟨by decide, by decide,
    C6_empty_result_error strsimImpl ⟨2, [SimilarityType.Levenshtein 5]⟩
      [⟨"u1", "applesauce", []⟩, ⟨"s1", "applesauce", ["catA"]⟩]
      (by decide) (by decide)⟩

/-- C7: when `strsim::hamming` fails for a pair, that metric pushes
nothing, evaluation of the other configured metrics (before and after it)
is unaffected, and the failure can never abort the run — `init_calculate`
fails only with the two partition-guard messages. -/
theorem C7_hamming_failure_skipped (lib : Strsim) (pw ps : Product)
    (min : Nat) (pre post : List SimilarityType)
    (hfail : lib.hamming pw.name ps.name = none) :
    similarityPush lib pw ps (SimilarityType.Hamming min) = none ∧
    pairResults lib pw ps (pre ++ SimilarityType.Hamming min :: post) =
      pairResults lib pw ps (pre ++ post) ∧
    (∀ (st : Settings) (prods : List Product) (e : String),
        init_calculate lib st prods = Except.error e →
          e = "Products without settings not found." ∨
          e = "Products with settings not found.") := by
  have hpush : similarityPush lib pw ps (SimilarityType.Hamming min) = none := by
    simp [similarityPush, hfail]
  refine ⟨hpush, ?_,
    fun st prods e h => init_calculate_error_message lib st prods e h⟩
  simp [pairResults, List.filterMap_append, List.filterMap_cons, hpush]

/-- Witness for C7: `hamming` fails on the unequal-length names "ab" and
"abc", and the remaining `Levenshtein 0` metric still evaluates. -/
theorem C7_hamming_failure_skipped_witness :
    strsimImpl.hamming "ab" "abc" = none ∧
    pairResults strsimImpl ⟨"u1", "ab", []⟩ ⟨"s1", "abc", ["catA"]⟩
        ([] ++ SimilarityType.Hamming 0 :: [SimilarityType.Levenshtein 0]) =
      pairResults strsimImpl ⟨"u1", "ab", []⟩ ⟨"s1", "abc", ["catA"]⟩
        ([] ++ [SimilarityType.Levenshtein 0]) :=
  ⟨by decide,
    (C7_hamming_failure_skipped strsimImpl ⟨"u1", "ab", []⟩
      ⟨"s1", "abc", ["catA"]⟩ 0 [] [SimilarityType.Levenshtein 0]
      (by decide)).2.1⟩

/-- C8: any two runs of the parallel pass on the same inputs and metric
list — under any worker-pool sizes and any schedules — produce result
collections that are permutations of each other (hence identical as sets);
which pairs match depends only on the inputs and the metric list. -/
theorem C8_schedule_independent (lib : Strsim) (ms : List SimilarityType)
    (n₁ n₂ : Nat) (ps : List Product) (out₁ out₂ : List Product)
    (h₁ : ParallelOutcome lib ⟨n₁, ms⟩ ps out₁)
    (h₂ : ParallelOutcome lib ⟨n₂, ms⟩ ps out₂) :
    List.Perm out₁ out₂ ∧ ∀ r : Product, r ∈ out₁ ↔ r ∈ out₂ := by
  have hc : calcProducts lib ⟨n₁, ms⟩ ps = calcProducts lib ⟨n₂, ms⟩ ps := rfl
  have hp : List.Perm out₁ out₂ := h₁.trans (hc ▸ h₂.symm)
  exact ⟨hp, fun r => hp.mem_iff⟩

/-- Witness for C8: two schedules (pool sizes 1 and 4) collecting the same
two matches in opposite orders are permutations of each other. -/
theorem C8_schedule_independent_witness :
    ParallelOutcome strsimImpl ⟨1, [SimilarityType.Levenshtein 0]⟩
        [⟨"u1", "a", []⟩, ⟨"s1", "bb", ["x"]⟩, ⟨"s2", "ccc", ["y"]⟩]
        [⟨"u1", "a", ["x"]⟩, ⟨"u1", "a", ["y"]⟩] ∧
    ParallelOutcome strsimImpl ⟨4, [SimilarityType.Levenshtein 0]⟩
        [⟨"u1", "a", []⟩, ⟨"s1", "bb", ["x"]⟩, ⟨"s2", "ccc", ["y"]⟩]
        [⟨"u1", "a", ["y"]⟩, ⟨"u1", "a", ["x"]⟩] ∧
    List.Perm [(⟨"u1", "a", ["x"]⟩ : Product), ⟨"u1", "a", ["y"]⟩]
        [⟨"u1", "a", ["y"]⟩, ⟨"u1", "a", ["x"]⟩] :=
  ⟨by unfold ParallelOutcome; decide, by unfold ParallelOutcome; decide,
    (C8_schedule_independent strsimImpl [SimilarityType.Levenshtein 0] 1 4
      [⟨"u1", "a", []⟩, ⟨"s1", "bb", ["x"]⟩, ⟨"s2", "ccc", ["y"]⟩]
      [⟨"u1", "a", ["x"]⟩, ⟨"u1", "a", ["y"]⟩]
      [⟨"u1", "a", ["y"]⟩, ⟨"u1", "a", ["x"]⟩]
      (by unfold ParallelOutcome; decide)
      (by unfold ParallelOutcome; decide)).1⟩

/-- C10: every record in a successful `init_calculate` output has a
non-empty `settings_id` taken verbatim from some settled input record,
while its `id` and `name` come from some unsettled input record. -/
theorem C10_output_invariant (lib : Strsim) (st : Settings)
    (ps : List Product) (out : List Product) (r : Product)
    (hok : init_calculate lib st ps = Except.ok out) (hr : r ∈ out) :
    r.settings_id ≠ [] ∧
    ∃ u ∈ ps, ∃ s ∈ ps, u.settings_id = [] ∧ s.settings_id ≠ [] ∧
      r = ⟨u.id, u.name, s.settings_id⟩ := by
  have hout : out = calcProducts lib st ps := by
    simp only [init_calculate] at hok
    split at hok
    · simp at hok
    · split at hok
      · simp at hok
      · exact (Except.ok.inj hok).symm
  rw [hout] at hr
  obtain ⟨u, hu, hue, s, hs, hse, _, hrm⟩ :=
    (mem_calcProducts lib st ps r).mp hr
  refine ⟨?_, u, hu, s, hs, hue, hse, hrm⟩
  rw [hrm]
  exact hse

/-- Witness for C10 on a concrete successful run. -/
theorem C10_output_invariant_witness :
    (⟨"u1", "applesauce", ["catA"]⟩ : Product).settings_id ≠ [] ∧
    ∃ u ∈ [(⟨"u1", "applesauce", []⟩ : Product), ⟨"s1", "pear", ["catA"]⟩],
      ∃ s ∈ [(⟨"u1", "applesauce", []⟩ : Product), ⟨"s1", "pear", ["catA"]⟩],
        u.settings_id = [] ∧ s.settings_id ≠ [] ∧
        (⟨"u1", "applesauce", ["catA"]⟩ : Product) =
          ⟨u.id, u.name, s.settings_id⟩ :=
  C10_output_invariant strsimImpl ⟨2, [SimilarityType.Levenshtein 0]⟩
    [⟨"u1", "applesauce", []⟩, ⟨"s1", "pear", ["catA"]⟩]
    [⟨"u1", "applesauce", ["catA"]⟩] ⟨"u1", "applesauce", ["catA"]⟩
    (by decide) (by decide)
